import Mathlib

/-!
# Login view script (`src/app/templates/views/Login/view_login.js`)

A shallow embedding of the browser-side script of the login / registration page.

* The page is a list of elements in document order.  An element reference held by the
  script (`loginForm`, `formWrapper`, the arguments of `switchForm`) is the position of the
  element in that list.  The script never creates or removes elements.
* `setTimeout` callbacks are kept in a queue; all of them are scheduled with the same delay
  (250 ms), so the browser runs them in the order in which they were scheduled.
* `scrollHeight` is a layout measurement: it is supplied by a function of the current
  document and the element measured.
-/

namespace ViewLogin

/-! ## Document model -/

/-- An element of the page: its `id`, its `classList` and its inline `style.height`. -/
structure Element where
  id : String
  classList : List String
  styleHeight : String
deriving DecidableEq, Repr

/-- The page: its elements in document order. -/
abbrev Document := List Element

/-- Applies `f` to the element at position `ref`; the other elements are untouched. -/
def updateElem (f : Element → Element) : Document → Nat → Document
  | [], _ => []
  | e :: rest, 0 => f e :: rest
  | e :: rest, n + 1 => e :: updateElem f rest n

/-- `DOMTokenList.add(tok)`: appends the token unless it is already present. -/
def tokensAdd (cls : List String) (tok : String) : List String :=
  if tok ∈ cls then cls else cls ++ [tok]

/-- `DOMTokenList.remove(tok)`: removes every occurrence of the token. -/
def tokensRemove (cls : List String) (tok : String) : List String :=
  cls.filter (fun c => decide (c ≠ tok))

/-- `el.classList.add(tok)`. -/
def classListAdd (doc : Document) (el : Nat) (tok : String) : Document :=
  updateElem (fun e => { e with classList := tokensAdd e.classList tok }) doc el

/-- `el.classList.remove(tok)`. -/
def classListRemove (doc : Document) (el : Nat) (tok : String) : Document :=
  updateElem (fun e => { e with classList := tokensRemove e.classList tok }) doc el

/-- `el.style.height = h`. -/
def setStyleHeight (doc : Document) (el : Nat) (h : String) : Document :=
  updateElem (fun e => { e with styleHeight := h }) doc el

/-- `el.classList.contains(tok)`; `false` when `el` is not an element of the page. -/
def hasClass (doc : Document) (el : Nat) (tok : String) : Bool :=
  match doc[el]? with
  | some e => decide (tok ∈ e.classList)
  | none => false

/-- `el.style.height`. -/
def styleHeightOf (doc : Document) (el : Nat) : Option String :=
  doc[el]?.map Element.styleHeight

/-- Position of the first element, in document order, that satisfies `p`. -/
def findFirst (p : Element → Bool) : Document → Option Nat
  | [] => none
  | e :: rest => if p e then some 0 else (findFirst p rest).map (fun i => i + 1)

/-- `document.getElementById(id)`; `none` is `null`. -/
def getElementById (doc : Document) (id : String) : Option Nat :=
  findFirst (fun e => decide (e.id = id)) doc

/-- `document.querySelector('.c1.c2...')` for a compound class selector; `none` is `null`. -/
def querySelector (doc : Document) (classes : List String) : Option Nat :=
  findFirst (fun e => classes.all (fun c => decide (c ∈ e.classList))) doc

/-- The element references bound by the `const` declarations at the top of the script. -/
structure Globals where
  btnLoginTab : Nat
  btnRegisterTab : Nat
  loginForm : Nat
  registerForm : Nat
  formWrapper : Nat
deriving DecidableEq, Repr

/-- The lookups of lines 4-8, on a page that provides every element the script uses. -/
def bindGlobals (doc : Document) : Option Globals := do
  let btnLoginTab ← getElementById doc "btnLoginTab"
  let btnRegisterTab ← getElementById doc "btnRegisterTab"
  let loginForm ← getElementById doc "loginForm"
  let registerForm ← getElementById doc "registerForm"
  let formWrapper ← querySelector doc ["form-wrapper"]
  pure { btnLoginTab, btnRegisterTab, loginForm, registerForm, formWrapper }

/-- The measurement behind `el.scrollHeight`, taken on the current document. -/
abbrev Layout := Document → Nat → Nat

/-! ## `adjustFormHeight` and `switchForm` -/

/-- `adjustFormHeight()` (lines 11-16). -/
def adjustFormHeight (layout : Layout) (formWrapper : Nat) (doc : Document) : Document :=
  match querySelector doc ["form-section", "active"] with
  | some activeForm => setStyleHeight doc formWrapper (toString (layout doc activeForm) ++ "px")
  | none => doc

/-- A callback scheduled with `setTimeout`: the variables its closure captured and its delay. -/
structure Timer where
  showForm : Nat
  hideForm : Nat
  delayMs : Nat
deriving DecidableEq, Repr

/-- `switchForm(showForm, hideForm, activeBtn, inactiveBtn)` (lines 19-34): the synchronous
part; returns the document after the call and the callback it scheduled. -/
def switchForm (doc : Document) (showForm hideForm activeBtn inactiveBtn : Nat) :
    Document × Timer :=
  let doc := classListAdd doc activeBtn "active"
  let doc := classListRemove doc inactiveBtn "active"
  let doc := classListRemove doc hideForm "active"
  let doc := classListAdd doc hideForm "exiting"
  (doc, { showForm := showForm, hideForm := hideForm, delayMs := 250 })

/-- The class updates of the `setTimeout` callback (lines 30-31). -/
def timerClassUpdates (doc : Document) (t : Timer) : Document :=
  let doc := classListRemove doc t.hideForm "exiting"
  classListAdd doc t.showForm "active"

/-- The body of the `setTimeout` callback of `switchForm` (lines 29-33). -/
def timerCallback (layout : Layout) (formWrapper : Nat) (doc : Document) (t : Timer) :
    Document :=
  adjustFormHeight layout formWrapper (timerClassUpdates doc t)

/-! ## The page as a transition system -/

/-- The page between two events: the document and the pending `setTimeout` callbacks,
oldest first. -/
structure Page where
  doc : Document
  timers : List Timer
deriving DecidableEq, Repr

/-- The events that drive the two forms. -/
inductive PageEvent where
  | clickLoginTab
  | clickRegisterTab
  | timerFires
deriving DecidableEq, Repr

/-- One event (lines 37-43 for the clicks); `none` when no timer is pending to fire. -/
def step (layout : Layout) (g : Globals) (s : Page) : PageEvent → Option Page
  | .clickLoginTab =>
      let r := switchForm s.doc g.loginForm g.registerForm g.btnLoginTab g.btnRegisterTab
      some { doc := r.1, timers := s.timers ++ [r.2] }
  | .clickRegisterTab =>
      let r := switchForm s.doc g.registerForm g.loginForm g.btnRegisterTab g.btnLoginTab
      some { doc := r.1, timers := s.timers ++ [r.2] }
  | .timerFires =>
      match s.timers with
      | [] => none
      | t :: rest => some { doc := timerCallback layout g.formWrapper s.doc t, timers := rest }

/-- Runs a sequence of events. -/
def runEvents (layout : Layout) (g : Globals) : Page → List PageEvent → Option Page
  | s, [] => some s
  | s, ev :: evs =>
      match step layout g s ev with
      | some s' => runEvents layout g s' evs
      | none => none

/-- The form a tab click shows; `none` for the timer event. -/
def clickedForm (g : Globals) : PageEvent → Option Nat
  | .clickLoginTab => some g.loginForm
  | .clickRegisterTab => some g.registerForm
  | .timerFires => none

/-- A click is `crossing` when a callback scheduled for the other form is still pending. -/
def crossing (g : Globals) (s : Page) (ev : PageEvent) : Bool :=
  match clickedForm g ev with
  | some f => s.timers.any (fun t => decide (t.showForm ≠ f))
  | none => false

/-- Whether the last tab click of the run `evs` from `s` was crossing. `before` answers for
the clicks made before the run, `false` when there was none; a timer event leaves the answer
as it is. -/
def lastClickCrossing (layout : Layout) (g : Globals) :
    Page → Bool → List PageEvent → Bool
  | _, before, [] => before
  | s, before, ev :: evs =>
      match step layout g s ev with
      | some s' =>
          lastClickCrossing layout g s'
            (if (clickedForm g ev).isSome then crossing g s ev else before) evs
      | none => before

/-- Whether `form` is active or a pending callback is going to make it active. -/
def willBeActive (s : Page) (form : Nat) : Bool :=
  hasClass s.doc form "active" || s.timers.any (fun t => decide (t.showForm = form))

/-- Exactly one of `loginForm` and `registerForm` carries the class `active`. -/
def exactlyOneActive (g : Globals) (doc : Document) : Prop :=
  (hasClass doc g.loginForm "active" = true ∧ hasClass doc g.registerForm "active" = false) ∨
  (hasClass doc g.loginForm "active" = false ∧ hasClass doc g.registerForm "active" = true)

instance (g : Globals) (doc : Document) : Decidable (exactlyOneActive g doc) := by
  unfold exactlyOneActive; infer_instance

/-- A page showing the login form: the two tabs, the wrapper and the two forms. -/
def samplePage : Document :=
  [ { id := "btnLoginTab", classList := ["tab", "active"], styleHeight := "" },
    { id := "btnRegisterTab", classList := ["tab"], styleHeight := "" },
    { id := "wrapper", classList := ["form-wrapper"], styleHeight := "" },
    { id := "loginForm", classList := ["form-section", "active"], styleHeight := "" },
    { id := "registerForm", classList := ["form-section"], styleHeight := "" } ]

/-- A layout in which every form is 300 px tall once active and 0 px otherwise. -/
def sampleLayout : Layout := fun doc el => if hasClass doc el "active" then 300 else 0

/-- The references `bindGlobals` finds on `samplePage`. -/
def sampleGlobals : Globals :=
  { btnLoginTab := 0, btnRegisterTab := 1, loginForm := 3, registerForm := 4, formWrapper := 2 }

/-- The invariant of a run, `crossed` telling whether its last click was crossing: if it was
not, exactly one of the two forms is or is going to be active; if it was, both are. -/
def Settling (g : Globals) (s : Page) (crossed : Bool) : Prop :=
  (crossed = false →
    (willBeActive s g.loginForm = true ∧ willBeActive s g.registerForm = false) ∨
    (willBeActive s g.loginForm = false ∧ willBeActive s g.registerForm = true)) ∧
  (crossed = true →
    willBeActive s g.loginForm = true ∧ willBeActive s g.registerForm = true)

/-! ## Values, requests and responses of the submit handler -/

/-- A JavaScript error value: its `name` and `message`. -/
structure JSError where
  name : String
  message : String
deriving DecidableEq, Repr

/-- The values a parsed JSON body is made of, and `undefined`. A number is an integer that
JavaScript prints in plain decimal digits; `obj` lists the own properties of the object. -/
inductive JSVal where
  | undefined
  | null
  | bool (b : Bool)
  | num (n : Int)
  | str (s : String)
  | arr (items : List JSVal)
  | obj (props : List (String × JSVal))
deriving Repr

/-- `ToBoolean`: what `&&`, `||` and `if` test. -/
def truthy : JSVal → Bool
  | .undefined => false
  | .null => false
  | .bool b => b
  | .num n => n != 0
  | .str s => s != ""
  | .arr _ => true
  | .obj _ => true

/-- The value of an own property of a parsed object, `undefined` when it has none. -/
def ownProp : List (String × JSVal) → String → JSVal
  | [], _ => .undefined
  | (k, v) :: rest, key => if k = key then v else ownProp rest key

/-- `value.key` for the two keys the script reads, `detail` and `access_token`, which no
built-in prototype defines: reading from `null` or `undefined` throws a `TypeError`, an
object yields its own property, any other value yields `undefined`. -/
def getProp (value : JSVal) (key : String) : Except JSError JSVal :=
  match value with
  | .undefined =>
      .error { name := "TypeError", message := "Cannot read properties of undefined" }
  | .null => .error { name := "TypeError", message := "Cannot read properties of null" }
  | .obj props => .ok (ownProp props key)
  | _ => .ok .undefined

mutual
/-- `ToString`, as applied by string concatenation and by `localStorage.setItem`. A parsed
object that has an own property `toString` (never callable in JSON) cannot be converted. -/
def toStr : JSVal → Except JSError String
  | .undefined => .ok "undefined"
  | .null => .ok "null"
  | .bool b => .ok (if b then "true" else "false")
  | .num n => .ok (toString n)
  | .str s => .ok s
  | .arr items => joinItems items
  | .obj props => objectToStr props
/-- `Array.prototype.join` with the default separator. -/
def joinItems : List JSVal → Except JSError String
  | [] => .ok ""
  | [x] => itemStr x
  | x :: y :: rest => do
      let a ← itemStr x
      let b ← joinItems (y :: rest)
      pure (a ++ "," ++ b)
/-- The text of one array item in `join`: empty for `undefined` and `null`. -/
def itemStr : JSVal → Except JSError String
  | .undefined => .ok ""
  | .null => .ok ""
  | v => toStr v
/-- The conversion of a parsed object to a string. -/
def objectToStr : List (String × JSVal) → Except JSError String
  | [] => .ok "[object Object]"
  | (k, _) :: rest =>
      if k = "toString" then
        .error { name := "TypeError", message := "Cannot convert object to primitive value" }
      else objectToStr rest
end

/-- Two lower-case hexadecimal digits of a code below 256. -/
def hexByte (n : Nat) : String :=
  String.mk [Nat.digitChar (n / 16), Nat.digitChar (n % 16)]

/-- The escape of one character inside a JSON string (`QuoteJSONString`). -/
def quoteChar (c : Char) : String :=
  if c.toNat = 34 then String.mk [Char.ofNat 92, Char.ofNat 34]
  else if c.toNat = 92 then String.mk [Char.ofNat 92, Char.ofNat 92]
  else if c.toNat = 8 then String.mk [Char.ofNat 92, Char.ofNat 98]
  else if c.toNat = 12 then String.mk [Char.ofNat 92, Char.ofNat 102]
  else if c.toNat = 10 then String.mk [Char.ofNat 92, Char.ofNat 110]
  else if c.toNat = 13 then String.mk [Char.ofNat 92, Char.ofNat 114]
  else if c.toNat = 9 then String.mk [Char.ofNat 92, Char.ofNat 116]
  else if c.toNat < 32 then String.mk [Char.ofNat 92, Char.ofNat 117] ++ "00" ++ hexByte c.toNat
  else String.singleton c

/-- A string as a JSON string literal. -/
def quoteJSON (s : String) : String :=
  String.singleton (Char.ofNat 34) ++ String.join (s.toList.map quoteChar)
    ++ String.singleton (Char.ofNat 34)

mutual
/-- `JSON.stringify(value)`; `none` is `undefined`. -/
def jsonStringify : JSVal → Option String
  | .undefined => none
  | .null => some "null"
  | .bool b => some (if b then "true" else "false")
  | .num n => some (toString n)
  | .str s => some (quoteJSON s)
  | .arr items => some ("[" ++ String.intercalate "," (stringifyItems items) ++ "]")
  | .obj props => some ("\x7b" ++ String.intercalate "," (stringifyProps props) ++ "\x7d")
/-- The serialised items of an array: `null` stands for an item that has no JSON form. -/
def stringifyItems : List JSVal → List String
  | [] => []
  | x :: rest => (jsonStringify x).getD "null" :: stringifyItems rest
/-- The serialised members of an object: a property that has no JSON form is left out. -/
def stringifyProps : List (String × JSVal) → List String
  | [] => []
  | (k, v) :: rest =>
      match jsonStringify v with
      | some text => (quoteJSON k ++ ":" ++ text) :: stringifyProps rest
      | none => stringifyProps rest
end

/-- The three fields read at submit time with `document.getElementById(id)?.value`: `none`
when the page has no such element, the expression being `undefined` then. -/
structure RegistrationInput where
  email : Option String
  password : Option String
  confirmPassword : Option String
deriving DecidableEq, Repr

/-- The JavaScript value of a field. -/
def fieldValue : Option String → JSVal
  | some s => .str s
  | none => .undefined

/-- The argument of `fetch`: the address and the options object. -/
structure Request where
  url : String
  method : String
  headers : List (String × String)
  body : Option String
deriving DecidableEq, Repr

/-- A response: its status and the outcome of `response.json()`, which throws when the body
is not JSON. -/
structure Response where
  status : Nat
  json : Except JSError JSVal

/-- `response.ok`: the status is in the range 200-299. -/
def Response.ok (r : Response) : Bool :=
  decide (200 ≤ r.status) && decide (r.status ≤ 299)

/-- How the promise returned by `fetch` settles. -/
inductive FetchResult where
  | rejected (error : JSError)
  | resolved (response : Response)

/-- What the handler does to the outside, in order. -/
inductive Effect where
  | preventDefault
  | alert (message : String)
  | fetch (request : Request)
  | consoleLog (label : String) (value : JSVal)
  | consoleError (label : String) (error : JSError)
  | setItem (key : String) (value : String)
  | assignLocation (href : String)

/-! ## The persistent store -/

/-- The browser's `localStorage` as the handler meets it: the entries it holds, and for
each write the error with which the browser refuses it, if it does (the quota is exceeded,
storage is disabled). -/
structure Storage where
  entries : List (String × String)
  failure : String → String → Option JSError

/-- The entries once `value` is stored under `key`: the value of an existing key is
replaced in place, a new key is appended. -/
def putEntry : List (String × String) → String → String → List (String × String)
  | [], key, value => [(key, value)]
  | (k, v) :: rest, key, value =>
      if k = key then (k, value) :: rest else (k, v) :: putEntry rest key value

/-- The value held under `key`, if any. -/
def findEntry : List (String × String) → String → Option String
  | [], _ => none
  | (k, v) :: rest, key => if k = key then some v else findEntry rest key

/-- `localStorage.getItem(key)`; `none` is `null`. -/
def getItem (store : Storage) (key : String) : Option String :=
  findEntry store.entries key

/-- `localStorage.setItem(key, value)`: throws when the browser refuses the write, stores
the value otherwise. -/
def setItem (store : Storage) (key value : String) : Except JSError Storage :=
  match store.failure key value with
  | some error => .error error
  | none => .ok { store with entries := putEntry store.entries key value }

/-! ## The submit handler -/

/-- The test of line 53: `pass && confirm && pass !== confirm`. -/
def passwordsMismatch (input : RegistrationInput) : Bool :=
  truthy (fieldValue input.password) && truthy (fieldValue input.confirmPassword)
    && decide (input.password ≠ input.confirmPassword)

/-- The request of lines 59-68. -/
def loginRequest (input : RegistrationInput) : Request :=
  { url := "http://127.0.0.1:8000/auth/login"
    method := "POST"
    headers := [("Content-Type", "application/json")]
    body := jsonStringify (.obj [("email", fieldValue input.email),
      ("password", fieldValue input.password)]) }

/-- The `catch` block (lines 85-88). -/
def catchBlock (error : JSError) : List Effect :=
  [.consoleError "Error al conectar con el servidor:" error,
   .alert "No se pudo conectar con el backend"]

/-- The branch `if (!response.ok)` (lines 70-74). -/
def notOkBranch (r : Response) : List Effect :=
  match r.json with
  | .error e => catchBlock e
  | .ok errorData =>
      match getProp errorData "detail" with
      | .error e => catchBlock e
      | .ok detail =>
          match toStr (if truthy detail then detail
              else .str "No se pudo procesar la solicitud") with
          | .error e => catchBlock e
          | .ok text => [.alert ("Error: " ++ text)]

/-- The rest of the `try` block after an OK response (lines 76-83). A throw of
`localStorage.setItem` is caught like any other; the trace records a write that succeeded. -/
def okBranch (r : Response) (store : Storage) : List Effect :=
  match r.json with
  | .error e => catchBlock e
  | .ok data =>
      .consoleLog "Respuesta del backend:" data ::
        match getProp data "access_token" with
        | .error e => catchBlock e
        | .ok token =>
            match toStr token with
            | .error e => catchBlock e
            | .ok text =>
                match setItem store "access_token" text with
                | .error e => catchBlock e
                | .ok _ => [.setItem "access_token" text, .assignLocation "/empresa"]

/-- The `submit` listener of `registerForm` (lines 46-89), run to completion against the
way the request settles and the store it writes to. -/
def submitHandler (input : RegistrationInput) (net : FetchResult) (store : Storage) :
    List Effect :=
  .preventDefault ::
    if passwordsMismatch input then [.alert "Las contraseñas no coinciden"]
    else
      .fetch (loginRequest input) ::
        match net with
        | .rejected error => catchBlock error
        | .resolved response =>
            if !response.ok then notOkBranch response else okBranch response store

/-! ## Reading a trace of effects -/

/-- The texts of the dialogs shown, in order. -/
def dialogs : List Effect → List String
  | [] => []
  | .alert m :: rest => m :: dialogs rest
  | _ :: rest => dialogs rest

/-- The requests issued, in order. -/
def requests : List Effect → List Request
  | [] => []
  | .fetch r :: rest => r :: requests rest
  | _ :: rest => requests rest

/-- The errors logged with `console.error`, in order. -/
def loggedErrors : List Effect → List (String × JSError)
  | [] => []
  | .consoleError l e :: rest => (l, e) :: loggedErrors rest
  | _ :: rest => loggedErrors rest

/-- The writes to `localStorage`, in order. -/
def storeWrites : List Effect → List (String × String)
  | [] => []
  | .setItem k v :: rest => (k, v) :: storeWrites rest
  | _ :: rest => storeWrites rest

/-- The addresses assigned to `window.location.href`, in order. -/
def navigations : List Effect → List String
  | [] => []
  | .assignLocation h :: rest => h :: navigations rest
  | _ :: rest => navigations rest

/-- The store after the writes of a trace; a trace records the writes that succeeded. -/
def storageAfter (store : Storage) (effects : List Effect) : Storage :=
  { store with
    entries := (storeWrites effects).foldl (fun es w => putEntry es w.1 w.2) store.entries }

/-- A store that accepts every write. -/
def sampleStore : Storage :=
  { entries := [("theme", "dark"), ("access_token", "old")], failure := fun _ _ => none }

/-- The error `localStorage.setItem` throws when the store is full. -/
def sampleQuotaError : JSError :=
  { name := "QuotaExceededError", message := "The quota has been exceeded." }

/-- A store that is full: it refuses every write. -/
def fullStore : Storage :=
  { entries := [("theme", "dark")], failure := fun _ _ => some sampleQuotaError }

/-- A registration input whose password and confirmation agree. -/
def sampleInput : RegistrationInput :=
  { email := some "ana@example.com", password := some "secret", confirmPassword := some "secret" }

/-- The error `response.json()` throws on a body that is not JSON. -/
def sampleSyntaxError : JSError := { name := "SyntaxError", message := "Unexpected token <" }

/-- The error `fetch` rejects with when the server cannot be reached. -/
def sampleNetworkError : JSError := { name := "TypeError", message := "Failed to fetch" }

/-! # Theorems -/

/-! ## Basic facts about the document operations -/

theorem length_updateElem (f : Element → Element) (doc : Document) (el : Nat) :
    (updateElem f doc el).length = doc.length := by
  induction doc generalizing el with
  | nil => simp [updateElem]
  | cons e rest ih =>
    cases el with
    | zero => simp [updateElem]
    | succ n => simp [updateElem, ih]

theorem getElem?_updateElem (f : Element → Element) (doc : Document) (el i : Nat) :
    (updateElem f doc el)[i]? = if i = el then doc[i]?.map f else doc[i]? := by
  induction doc generalizing el i with
  | nil => simp [updateElem]
  | cons e rest ih =>
    cases el with
    | zero =>
      cases i with
      | zero => simp [updateElem]
      | succ j => simp [updateElem]
    | succ n =>
      cases i with
      | zero => simp [updateElem]
      | succ j =>
        simp [updateElem, ih n j]

@[simp] theorem length_classListAdd (doc : Document) (el : Nat) (tok : String) :
    (classListAdd doc el tok).length = doc.length := length_updateElem _ _ _

@[simp] theorem length_classListRemove (doc : Document) (el : Nat) (tok : String) :
    (classListRemove doc el tok).length = doc.length := length_updateElem _ _ _

@[simp] theorem length_setStyleHeight (doc : Document) (el : Nat) (h : String) :
    (setStyleHeight doc el h).length = doc.length := length_updateElem _ _ _

theorem mem_tokensAdd (cls : List String) (tok c : String) :
    c ∈ tokensAdd cls tok ↔ c ∈ cls ∨ c = tok := by
  unfold tokensAdd
  split
  · constructor
    · intro h; exact Or.inl h
    · rintro (h | h)
      · exact h
      · subst h; assumption
  · simp

theorem mem_tokensRemove (cls : List String) (tok c : String) :
    c ∈ tokensRemove cls tok ↔ c ∈ cls ∧ c ≠ tok := by
  simp [tokensRemove]

theorem hasClass_classListAdd (doc : Document) (el i : Nat) (tok c : String) :
    hasClass (classListAdd doc el tok) i c
      = (hasClass doc i c || (decide (i = el) && decide (c = tok) && decide (i < doc.length))) := by
  unfold hasClass classListAdd
  rw [getElem?_updateElem]
  by_cases hi : i = el
  · subst hi
    cases hg : doc[i]? with
    | none =>
      have : ¬ i < doc.length := by
        intro hlt
        simp [List.getElem?_eq_getElem hlt] at hg
      simp [this]
    | some e =>
      have : i < doc.length := by
        by_contra hlt
        simp [List.getElem?_eq_none (Nat.le_of_not_lt hlt)] at hg
      simp [this, mem_tokensAdd, Bool.decide_or]
  · simp [hi]

theorem hasClass_classListRemove (doc : Document) (el i : Nat) (tok c : String) :
    hasClass (classListRemove doc el tok) i c
      = (hasClass doc i c && !(decide (i = el) && decide (c = tok))) := by
  unfold hasClass classListRemove
  rw [getElem?_updateElem]
  by_cases hi : i = el
  · subst hi
    cases hg : doc[i]? with
    | none => simp
    | some e => simp [mem_tokensRemove, Bool.decide_and]
  · simp [hi]

@[simp] theorem hasClass_setStyleHeight (doc : Document) (el i : Nat) (h c : String) :
    hasClass (setStyleHeight doc el h) i c = hasClass doc i c := by
  unfold hasClass setStyleHeight
  rw [getElem?_updateElem]
  by_cases hi : i = el
  · subst hi
    cases hg : doc[i]? <;> simp
  · simp [hi]

@[simp] theorem length_adjustFormHeight (layout : Layout) (w : Nat) (doc : Document) :
    (adjustFormHeight layout w doc).length = doc.length := by
  unfold adjustFormHeight; split <;> simp

@[simp] theorem hasClass_adjustFormHeight (layout : Layout) (w : Nat) (doc : Document)
    (i : Nat) (c : String) :
    hasClass (adjustFormHeight layout w doc) i c = hasClass doc i c := by
  unfold adjustFormHeight; split <;> simp

theorem styleHeightOf_setStyleHeight (doc : Document) (el : Nat) (h : String)
    (hel : el < doc.length) : styleHeightOf (setStyleHeight doc el h) el = some h := by
  unfold styleHeightOf setStyleHeight
  rw [getElem?_updateElem]
  simp [List.getElem?_eq_getElem hel]

/-- C5. For every call `switchForm(show, hide, activeBtn, inactiveBtn)` whose arguments are
elements of the page, with `show` and `hide` distinct: right after the call `hide` carries
`exiting` and not `active`, and the call schedules one callback for `(show, hide)` with a
delay of 250 ms; once that callback has run on the document the call left, `hide` carries
neither `exiting` nor `active` and `show` carries `active`. -/
theorem switchForm_then_timer (layout : Layout) (formWrapper : Nat) (doc : Document)
    (showForm hideForm activeBtn inactiveBtn : Nat)
    (hne : showForm ≠ hideForm)
    (hshow : showForm < doc.length) (hhide : hideForm < doc.length)
    (_hact : activeBtn < doc.length) (_hinact : inactiveBtn < doc.length) :
    let r := switchForm doc showForm hideForm activeBtn inactiveBtn
    let after := timerCallback layout formWrapper r.1 r.2
    hasClass r.1 hideForm "exiting" = true ∧
    hasClass r.1 hideForm "active" = false ∧
    r.2 = { showForm := showForm, hideForm := hideForm, delayMs := 250 } ∧
    hasClass after hideForm "exiting" = false ∧
    hasClass after hideForm "active" = false ∧
    hasClass after showForm "active" = true := by
  have hne' : hideForm ≠ showForm := fun h => hne h.symm
  simp [switchForm, timerCallback, timerClassUpdates, hasClass_classListAdd,
    hasClass_classListRemove, hne, hne', hshow, hhide]

theorem switchForm_then_timer_witness :
    hasClass (switchForm samplePage 4 3 1 0).1 3 "exiting" = true ∧
    hasClass (switchForm samplePage 4 3 1 0).1 3 "active" = false ∧
    (switchForm samplePage 4 3 1 0).2 = { showForm := 4, hideForm := 3, delayMs := 250 } ∧
    hasClass (timerCallback sampleLayout 2 (switchForm samplePage 4 3 1 0).1
      (switchForm samplePage 4 3 1 0).2) 3 "exiting" = false ∧
    hasClass (timerCallback sampleLayout 2 (switchForm samplePage 4 3 1 0).1
      (switchForm samplePage 4 3 1 0).2) 3 "active" = false ∧
    hasClass (timerCallback sampleLayout 2 (switchForm samplePage 4 3 1 0).1
      (switchForm samplePage 4 3 1 0).2) 4 "active" = true :=
  switchForm_then_timer sampleLayout 2 samplePage 4 3 1 0 (by decide) (by decide) (by decide)
    (by decide) (by decide)

theorem findFirst_eq_some (p : Element → Bool) (doc : Document) (s : Nat) (e : Element)
    (hget : doc[s]? = some e) (hp : p e = true)
    (hbefore : ∀ (i : Nat) (e' : Element), i < s → doc[i]? = some e' → p e' = false) :
    findFirst p doc = some s := by
  induction doc generalizing s with
  | nil => simp at hget
  | cons a rest ih =>
    cases s with
    | zero =>
      simp at hget
      subst hget
      simp [findFirst, hp]
    | succ n =>
      have ha : p a = false := hbefore 0 a (Nat.succ_pos n) (by simp)
      have hrest : findFirst p rest = some n := by
        apply ih n
        · simpa using hget
        · intro i e' hi hg
          exact hbefore (i + 1) e' (Nat.succ_lt_succ hi) (by simpa using hg)
      simp [findFirst, ha, hrest]

theorem findFirst_eq_none (p : Element → Bool) (doc : Document)
    (h : ∀ (i : Nat) (e : Element), doc[i]? = some e → p e = false) : findFirst p doc = none := by
  induction doc with
  | nil => rfl
  | cons a rest ih =>
    have ha : p a = false := h 0 a (by simp)
    have hrest : findFirst p rest = none :=
      ih (fun i e hg => h (i + 1) e (by simpa using hg))
    simp [findFirst, ha, hrest]

theorem selector_eq_hasClass (doc : Document) (i : Nat) (e : Element)
    (hget : doc[i]? = some e) :
    ["form-section", "active"].all (fun c => decide (c ∈ e.classList))
      = (hasClass doc i "form-section" && hasClass doc i "active") := by
  simp [hasClass, hget]

theorem querySelector_active_eq_some (doc : Document) (s : Nat) (hs : s < doc.length)
    (hsec : hasClass doc s "form-section" = true) (hact : hasClass doc s "active" = true)
    (hothers : ∀ i, i ≠ s →
      (hasClass doc i "form-section" && hasClass doc i "active") = false) :
    querySelector doc ["form-section", "active"] = some s := by
  unfold querySelector
  apply findFirst_eq_some _ doc s (doc.get ⟨s, hs⟩)
  · simp [List.getElem?_eq_getElem hs]
  · rw [selector_eq_hasClass doc s _ (by simp [List.getElem?_eq_getElem hs])]
    simp [hsec, hact]
  · intro i e' hi hg
    rw [selector_eq_hasClass doc i e' hg]
    exact hothers i (Nat.ne_of_lt hi)

theorem querySelector_active_eq_none (doc : Document)
    (h : ∀ i, (hasClass doc i "form-section" && hasClass doc i "active") = false) :
    querySelector doc ["form-section", "active"] = none := by
  unfold querySelector
  apply findFirst_eq_none
  intro i e hg
  rw [selector_eq_hasClass doc i e hg]
  exact h i

/-- C10. For every call `switchForm(show, hide, activeBtn, inactiveBtn)` on elements of the
page, with `show` and `hide` distinct and the only elements of class `form-section`: once the
timer callback has run on the document the call left, the inline height of the wrapper is the
`scrollHeight` of `show`, measured after the class updates of the callback, followed by `px`.
And `adjustFormHeight` returns the document unchanged whenever no element carries both
`form-section` and `active`. -/
theorem switchForm_adjusts_height (layout : Layout) (formWrapper : Nat) (doc : Document)
    (showForm hideForm activeBtn inactiveBtn : Nat)
    (hne : showForm ≠ hideForm)
    (hshow : showForm < doc.length) (hhide : hideForm < doc.length)
    (_hact : activeBtn < doc.length) (_hinact : inactiveBtn < doc.length)
    (hwrap : formWrapper < doc.length)
    (honly : ∀ i, hasClass doc i "form-section" = true ↔ (i = showForm ∨ i = hideForm)) :
    (let r := switchForm doc showForm hideForm activeBtn inactiveBtn
     styleHeightOf (timerCallback layout formWrapper r.1 r.2) formWrapper
       = some (toString (layout (timerClassUpdates r.1 r.2) showForm) ++ "px")) ∧
    (∀ d : Document,
      (∀ i, ¬ (hasClass d i "form-section" = true ∧ hasClass d i "active" = true)) →
      adjustFormHeight layout formWrapper d = d) := by
  have hne' : hideForm ≠ showForm := fun h => hne h.symm
  constructor
  · intro r
    have hq : querySelector (timerClassUpdates r.1 r.2) ["form-section", "active"]
        = some showForm := by
      apply querySelector_active_eq_some
      · simp [r, switchForm, timerClassUpdates, hshow]
      · simp [r, switchForm, timerClassUpdates, hasClass_classListAdd,
          hasClass_classListRemove, (honly showForm).2 (Or.inl rfl)]
      · simp [r, switchForm, timerClassUpdates, hasClass_classListAdd,
          hasClass_classListRemove, hshow]
      · intro i hi
        by_cases hih : i = hideForm
        · subst hih
          simp [r, switchForm, timerClassUpdates, hasClass_classListAdd,
            hasClass_classListRemove, hi]
        · have hno : hasClass doc i "form-section" = false := by
            cases hc : hasClass doc i "form-section" with
            | false => rfl
            | true =>
              rcases (honly i).1 hc with h | h
              · exact absurd h hi
              · exact absurd h hih
          simp [r, switchForm, timerClassUpdates, hasClass_classListAdd,
            hasClass_classListRemove, hno]
    show styleHeightOf (adjustFormHeight layout formWrapper (timerClassUpdates r.1 r.2))
      formWrapper = _
    unfold adjustFormHeight
    rw [hq]
    apply styleHeightOf_setStyleHeight
    simp [r, switchForm, timerClassUpdates, hwrap]
  · intro d hd
    unfold adjustFormHeight
    rw [querySelector_active_eq_none d (fun i => by
      have := hd i
      cases h1 : hasClass d i "form-section" <;> cases h2 : hasClass d i "active" <;>
        simp_all)]

theorem switchForm_adjusts_height_witness :
    styleHeightOf (timerCallback sampleLayout 2 (switchForm samplePage 4 3 1 0).1
      (switchForm samplePage 4 3 1 0).2) 2 = some "300px" ∧
    adjustFormHeight sampleLayout 2
        [{ id := "loginForm", classList := ["form-section"], styleHeight := "10px" }]
      = [{ id := "loginForm", classList := ["form-section"], styleHeight := "10px" }] := by
  have h := switchForm_adjusts_height sampleLayout 2 samplePage 4 3 1 0 (by decide)
    (by decide) (by decide) (by decide) (by decide) (by decide)
    (by
      intro i
      constructor
      · intro hi
        have hlt : i < 5 := by
          by_contra hge
          have : samplePage[i]? = none := by
            simp [samplePage, List.getElem?_eq_none_iff]; omega
          simp [hasClass, this] at hi
        interval_cases i <;> simp_all [hasClass, samplePage]
      · rintro (h | h) <;> subst h <;> decide)
  refine ⟨?_, ?_⟩
  · have h1 := h.1
    simpa using h1
  · apply h.2
    intro i
    cases i with
    | zero => decide
    | succ n => simp [hasClass]

/-! ## The settled page -/

theorem findFirst_some_getElem? (p : Element → Bool) (doc : Document) (i : Nat)
    (h : findFirst p doc = some i) : ∃ e, doc[i]? = some e ∧ p e = true := by
  induction doc generalizing i with
  | nil => simp [findFirst] at h
  | cons a rest ih =>
    unfold findFirst at h
    by_cases ha : p a = true
    · simp [ha] at h
      subst h
      exact ⟨a, by simp, ha⟩
    · simp [ha] at h
      obtain ⟨j, hj, rfl⟩ := h
      obtain ⟨e, he, hpe⟩ := ih j hj
      exact ⟨e, by simpa using he, hpe⟩

theorem getElementById_spec (doc : Document) (id : String) (i : Nat)
    (h : getElementById doc id = some i) : i < doc.length ∧ ∃ e, doc[i]? = some e ∧ e.id = id := by
  obtain ⟨e, he, hp⟩ := findFirst_some_getElem? _ doc i h
  refine ⟨?_, e, he, by simpa using hp⟩
  by_contra hlt
  simp [List.getElem?_eq_none (Nat.le_of_not_lt hlt)] at he

/-- On a page where the script found its elements, the two forms are distinct elements. -/
theorem bindGlobals_forms (doc : Document) (g : Globals) (h : bindGlobals doc = some g) :
    g.loginForm < doc.length ∧ g.registerForm < doc.length ∧ g.loginForm ≠ g.registerForm := by
  unfold bindGlobals at h
  cases h1 : getElementById doc "btnLoginTab" with
  | none => simp [h1] at h
  | some a =>
  cases h2 : getElementById doc "btnRegisterTab" with
  | none => simp [h1, h2] at h
  | some b =>
  cases h3 : getElementById doc "loginForm" with
  | none => simp [h1, h2, h3] at h
  | some c =>
  cases h4 : getElementById doc "registerForm" with
  | none => simp [h1, h2, h3, h4] at h
  | some d =>
  cases h5 : querySelector doc ["form-wrapper"] with
  | none => simp [h1, h2, h3, h4, h5] at h
  | some w =>
    simp [h1, h2, h3, h4, h5] at h
    subst h
    obtain ⟨hc, e, he, hid⟩ := getElementById_spec doc _ c h3
    obtain ⟨hd, e', he', hid'⟩ := getElementById_spec doc _ d h4
    refine ⟨hc, hd, ?_⟩
    intro hcd
    simp only at hcd
    subst hcd
    rw [he] at he'
    cases he'
    rw [hid] at hid'
    exact absurd hid' (by decide)

@[simp] theorem length_switchForm (doc : Document) (a b c d : Nat) :
    (switchForm doc a b c d).1.length = doc.length := by
  simp [switchForm]

@[simp] theorem length_timerCallback (layout : Layout) (w : Nat) (doc : Document) (t : Timer) :
    (timerCallback layout w doc t).length = doc.length := by
  simp [timerCallback, timerClassUpdates]

theorem hasClass_switchForm_hide (doc : Document) (a b c d : Nat) :
    hasClass (switchForm doc a b c d).1 b "active" = false := by
  simp [switchForm, hasClass_classListAdd, hasClass_classListRemove]

theorem hasClass_timerCallback_show (layout : Layout) (w : Nat) (doc : Document) (t : Timer)
    (h : t.showForm < doc.length) :
    hasClass (timerCallback layout w doc t) t.showForm "active" = true := by
  simp [timerCallback, timerClassUpdates, hasClass_classListAdd, hasClass_classListRemove, h]

theorem hasClass_timerCallback_other (layout : Layout) (w : Nat) (doc : Document) (t : Timer)
    (i : Nat) (h : i ≠ t.showForm) :
    hasClass (timerCallback layout w doc t) i "active" = hasClass doc i "active" := by
  simp [timerCallback, timerClassUpdates, hasClass_classListAdd, hasClass_classListRemove, h]

/-- What every reachable page satisfies: the forms stay on the page, pending callbacks show
one of the two forms, and a settled page has an active form. -/
theorem step_some_active (layout : Layout) (g : Globals) (s s' : Page) (ev : PageEvent)
    (hstep : step layout g s ev = some s')
    (hl : g.loginForm < s.doc.length) (hr : g.registerForm < s.doc.length)
    (ht : ∀ t ∈ s.timers, t.showForm = g.loginForm ∨ t.showForm = g.registerForm) :
    g.loginForm < s'.doc.length ∧ g.registerForm < s'.doc.length ∧
    (∀ t ∈ s'.timers, t.showForm = g.loginForm ∨ t.showForm = g.registerForm) ∧
    (s'.timers = [] → hasClass s'.doc g.loginForm "active" = true ∨
      hasClass s'.doc g.registerForm "active" = true) := by
  cases ev with
  | clickLoginTab =>
    simp only [step, Option.some.injEq] at hstep
    subst hstep
    refine ⟨by simpa using hl, by simpa using hr, ?_, by simp⟩
    intro t htm
    rcases List.mem_append.1 htm with h | h
    · exact ht t h
    · simp [switchForm] at h
      subst h
      exact Or.inl rfl
  | clickRegisterTab =>
    simp only [step, Option.some.injEq] at hstep
    subst hstep
    refine ⟨by simpa using hl, by simpa using hr, ?_, by simp⟩
    intro t htm
    rcases List.mem_append.1 htm with h | h
    · exact ht t h
    · simp [switchForm] at h
      subst h
      exact Or.inr rfl
  | timerFires =>
    cases hts : s.timers with
    | nil => simp [step, hts] at hstep
    | cons t rest =>
      simp only [step, hts, Option.some.injEq] at hstep
      subst hstep
      refine ⟨by simpa using hl, by simpa using hr, ?_, ?_⟩
      · intro t' ht'
        exact ht t' (by rw [hts]; exact List.mem_cons_of_mem _ ht')
      · intro _
        rcases ht t (by rw [hts]; exact List.mem_cons_self _ _) with h | h
        · left
          have := hasClass_timerCallback_show layout g.formWrapper s.doc t (by rw [h]; exact hl)
          rw [h] at this
          exact this
        · right
          have := hasClass_timerCallback_show layout g.formWrapper s.doc t (by rw [h]; exact hr)
          rw [h] at this
          exact this

theorem runEvents_some_active (layout : Layout) (g : Globals) (evs : List PageEvent)
    (s s' : Page) (hrun : runEvents layout g s evs = some s')
    (hl : g.loginForm < s.doc.length) (hr : g.registerForm < s.doc.length)
    (ht : ∀ t ∈ s.timers, t.showForm = g.loginForm ∨ t.showForm = g.registerForm)
    (hs : s.timers = [] → hasClass s.doc g.loginForm "active" = true ∨
      hasClass s.doc g.registerForm "active" = true) :
    s'.timers = [] → hasClass s'.doc g.loginForm "active" = true ∨
      hasClass s'.doc g.registerForm "active" = true := by
  induction evs generalizing s with
  | nil =>
    simp only [runEvents, Option.some.injEq] at hrun
    subst hrun
    exact hs
  | cons ev rest ih =>
    unfold runEvents at hrun
    cases hstep : step layout g s ev with
    | none => simp [hstep] at hrun
    | some s1 =>
      simp only [hstep] at hrun
      obtain ⟨h1, h2, h3, h4⟩ := step_some_active layout g s s1 ev hstep hl hr ht
      exact ih s1 hrun h1 h2 h3 h4

theorem any_show_ne (g : Globals) (timers : List Timer) (f h : Nat) (hfh : f ≠ h)
    (hpair : (f = g.loginForm ∧ h = g.registerForm) ∨ (f = g.registerForm ∧ h = g.loginForm))
    (ht : ∀ t ∈ timers, t.showForm = g.loginForm ∨ t.showForm = g.registerForm) :
    timers.any (fun t => decide (t.showForm = h))
      = timers.any (fun t => decide (t.showForm ≠ f)) := by
  rw [Bool.eq_iff_iff]
  simp only [List.any_eq_true, decide_eq_true_eq]
  constructor
  · rintro ⟨t, htm, hth⟩
    exact ⟨t, htm, by rw [hth]; exact fun e => hfh e.symm⟩
  · rintro ⟨t, htm, hth⟩
    refine ⟨t, htm, ?_⟩
    rcases hpair with ⟨rfl, rfl⟩ | ⟨rfl, rfl⟩
    · rcases ht t htm with h1 | h1
      · exact absurd h1 hth
      · exact h1
    · rcases ht t htm with h1 | h1
      · exact h1
      · exact absurd h1 hth

/-- A click makes the form it shows the one that is going to be active; the form it hides is
going to be active only if the click was crossing. -/
theorem willBeActive_click (g : Globals) (s : Page) (f h a b : Nat) (hfh : f ≠ h)
    (hpair : (f = g.loginForm ∧ h = g.registerForm) ∨ (f = g.registerForm ∧ h = g.loginForm))
    (ht : ∀ t ∈ s.timers, t.showForm = g.loginForm ∨ t.showForm = g.registerForm) :
    willBeActive { doc := (switchForm s.doc f h a b).1,
                   timers := s.timers ++ [(switchForm s.doc f h a b).2] } f = true ∧
    willBeActive { doc := (switchForm s.doc f h a b).1,
                   timers := s.timers ++ [(switchForm s.doc f h a b).2] } h
      = s.timers.any (fun t => decide (t.showForm ≠ f)) := by
  constructor
  · simp [willBeActive, switchForm]
  · have hhide := hasClass_switchForm_hide s.doc f h a b
    unfold willBeActive
    simp only [hhide, Bool.false_or, List.any_append]
    rw [any_show_ne g s.timers f h hfh hpair ht]
    simp [switchForm, hfh]

/-- Running a callback changes nothing about which forms are or are going to be active. -/
theorem willBeActive_fire (layout : Layout) (w : Nat) (doc : Document) (t : Timer)
    (rest : List Timer) (x : Nat) (hx : x < doc.length) :
    willBeActive { doc := timerCallback layout w doc t, timers := rest } x
      = willBeActive { doc := doc, timers := t :: rest } x := by
  unfold willBeActive
  by_cases htx : t.showForm = x
  · have h1 := hasClass_timerCallback_show layout w doc t (by rw [htx]; exact hx)
    rw [htx] at h1
    simp [h1, htx]
  · have hxt : x ≠ t.showForm := fun e => htx e.symm
    rw [hasClass_timerCallback_other layout w doc t x hxt]
    simp [htx]

theorem step_settling (layout : Layout) (g : Globals) (s s' : Page) (ev : PageEvent)
    (crossed : Bool) (hstep : step layout g s ev = some s')
    (hne : g.loginForm ≠ g.registerForm)
    (hl : g.loginForm < s.doc.length) (hr : g.registerForm < s.doc.length)
    (ht : ∀ t ∈ s.timers, t.showForm = g.loginForm ∨ t.showForm = g.registerForm)
    (hinv : Settling g s crossed) :
    Settling g s' (if (clickedForm g ev).isSome then crossing g s ev else crossed) := by
  have hne' : g.registerForm ≠ g.loginForm := fun h => hne h.symm
  cases ev with
  | clickLoginTab =>
    simp only [step, Option.some.injEq] at hstep
    subst hstep
    obtain ⟨h1, h2⟩ := willBeActive_click g s g.loginForm g.registerForm g.btnLoginTab
      g.btnRegisterTab hne (Or.inl ⟨rfl, rfl⟩) ht
    simp only [clickedForm, Option.isSome_some, if_true, crossing]
    refine ⟨fun hc => Or.inl ⟨h1, ?_⟩, fun hc => ⟨h1, ?_⟩⟩
    · rw [h2]; exact hc
    · rw [h2]; exact hc
  | clickRegisterTab =>
    simp only [step, Option.some.injEq] at hstep
    subst hstep
    obtain ⟨h1, h2⟩ := willBeActive_click g s g.registerForm g.loginForm g.btnRegisterTab
      g.btnLoginTab hne' (Or.inr ⟨rfl, rfl⟩) ht
    simp only [clickedForm, Option.isSome_some, if_true, crossing]
    refine ⟨fun hc => Or.inr ⟨?_, h1⟩, fun hc => ⟨?_, h1⟩⟩
    · rw [h2]; exact hc
    · rw [h2]; exact hc
  | timerFires =>
    cases hts : s.timers with
    | nil => simp [step, hts] at hstep
    | cons t rest =>
      simp only [step, hts, Option.some.injEq] at hstep
      subst hstep
      have hs : s = { doc := s.doc, timers := t :: rest } := by
        cases s; simp_all
      have e1 := willBeActive_fire layout g.formWrapper s.doc t rest g.loginForm hl
      have e2 := willBeActive_fire layout g.formWrapper s.doc t rest g.registerForm hr
      rw [← hs] at e1 e2
      simp only [clickedForm, Option.isSome_none, Bool.false_eq_true, if_false]
      unfold Settling
      rw [e1, e2]
      exact hinv

theorem runEvents_settling (layout : Layout) (g : Globals) (evs : List PageEvent)
    (s s' : Page) (crossed : Bool) (hrun : runEvents layout g s evs = some s')
    (hne : g.loginForm ≠ g.registerForm)
    (hl : g.loginForm < s.doc.length) (hr : g.registerForm < s.doc.length)
    (ht : ∀ t ∈ s.timers, t.showForm = g.loginForm ∨ t.showForm = g.registerForm)
    (hinv : Settling g s crossed) :
    Settling g s' (lastClickCrossing layout g s crossed evs) := by
  induction evs generalizing s crossed with
  | nil =>
    simp only [runEvents, Option.some.injEq] at hrun
    subst hrun
    exact hinv
  | cons ev rest ih =>
    unfold runEvents at hrun
    unfold lastClickCrossing
    cases hstep : step layout g s ev with
    | none => simp [hstep] at hrun
    | some s1 =>
      simp only [hstep] at hrun ⊢
      obtain ⟨h1, h2, h3, _⟩ := step_some_active layout g s s1 ev hstep hl hr ht
      exact ih s1 _ hrun h1 h2 h3 (step_settling layout g s s1 ev crossed hstep hne hl hr ht hinv)

/-- C4, as stated, fails. On `samplePage` (login form active, nothing exiting, no timer
pending) the script binds its elements; clicking the register tab, then the login tab before
the first callback has run, and letting both callbacks run reaches a settled page on which
both forms are active. -/
theorem settled_page_two_active :
    ¬ (∀ (layout : Layout) (doc : Document) (g : Globals),
        bindGlobals doc = some g → exactlyOneActive g doc →
        hasClass doc g.loginForm "exiting" = false →
        hasClass doc g.registerForm "exiting" = false →
        ∀ (evs : List PageEvent) (s : Page),
          runEvents layout g { doc := doc, timers := [] } evs = some s →
          s.timers = [] → exactlyOneActive g s.doc) := by
  intro h
  have h1 := h sampleLayout samplePage sampleGlobals (by decide) (by decide) (by decide)
    (by decide)
    [.clickRegisterTab, .clickLoginTab, .timerFires, .timerFires] _ rfl (by decide)
  revert h1
  decide

/-- C4, amended. Start from a page on which the script bound its elements, with exactly one
of the two forms active and no timer pending, and take as steps the two tab clicks and the
run of the oldest pending timer callback. Every reachable page with no pending timer has at
least one active form. It has exactly one active form if and only if the last tab click of
the run, if there was one, was not made while a callback scheduled by a click on the other
tab was still pending; after such a last click both forms are active. -/
theorem settled_page_active (layout : Layout) (doc : Document) (g : Globals)
    (evs : List PageEvent) (s : Page)
    (hg : bindGlobals doc = some g) (hinit : exactlyOneActive g doc)
    (hrun : runEvents layout g { doc := doc, timers := [] } evs = some s)
    (hsettled : s.timers = []) :
    (hasClass s.doc g.loginForm "active" = true ∨
      hasClass s.doc g.registerForm "active" = true) ∧
    (exactlyOneActive g s.doc ↔
      lastClickCrossing layout g { doc := doc, timers := [] } false evs = false) ∧
    (lastClickCrossing layout g { doc := doc, timers := [] } false evs = true →
      hasClass s.doc g.loginForm "active" = true ∧
        hasClass s.doc g.registerForm "active" = true) := by
  obtain ⟨hl, hr, hne⟩ := bindGlobals_forms doc g hg
  have h0 : Settling g { doc := doc, timers := [] } false := by
    refine ⟨fun _ => ?_, fun h => by simp at h⟩
    simpa [willBeActive, exactlyOneActive] using hinit
  have hfin := runEvents_settling layout g evs _ s false hrun hne hl hr (by simp) h0
  have hwl : willBeActive s g.loginForm = hasClass s.doc g.loginForm "active" := by
    simp [willBeActive, hsettled]
  have hwr : willBeActive s g.registerForm = hasClass s.doc g.registerForm "active" := by
    simp [willBeActive, hsettled]
  unfold Settling at hfin
  rw [hwl, hwr] at hfin
  obtain ⟨hf, ht⟩ := hfin
  cases hc : lastClickCrossing layout g { doc := doc, timers := [] } false evs with
  | false =>
    have h1 := hf hc
    refine ⟨?_, ⟨fun _ => rfl, fun _ => h1⟩, fun h => by simp at h⟩
    rcases h1 with ⟨h, _⟩ | ⟨_, h⟩
    · exact Or.inl h
    · exact Or.inr h
  | true =>
    obtain ⟨h1, h2⟩ := ht hc
    refine ⟨Or.inl h1, ⟨fun hex => ?_, fun h => by simp at h⟩, fun _ => ⟨h1, h2⟩⟩
    rcases hex with ⟨_, h⟩ | ⟨h, _⟩
    · rw [h2] at h; simp at h
    · rw [h1] at h; simp at h

theorem settled_page_active_witness :
    bindGlobals samplePage = some sampleGlobals ∧ exactlyOneActive sampleGlobals samplePage ∧
    ∃ s : Page,
      runEvents sampleLayout sampleGlobals { doc := samplePage, timers := [] }
        [.clickRegisterTab, .clickLoginTab, .timerFires, .timerFires, .clickRegisterTab,
          .timerFires] = some s ∧
      s.timers = [] ∧
      (hasClass s.doc sampleGlobals.loginForm "active" = true ∨
        hasClass s.doc sampleGlobals.registerForm "active" = true) ∧
      (exactlyOneActive sampleGlobals s.doc ↔
        lastClickCrossing sampleLayout sampleGlobals { doc := samplePage, timers := [] } false
          [.clickRegisterTab, .clickLoginTab, .timerFires, .timerFires, .clickRegisterTab,
            .timerFires] = false) ∧
      (lastClickCrossing sampleLayout sampleGlobals { doc := samplePage, timers := [] } false
          [.clickRegisterTab, .clickLoginTab, .timerFires, .timerFires, .clickRegisterTab,
            .timerFires] = true →
        hasClass s.doc sampleGlobals.loginForm "active" = true ∧
          hasClass s.doc sampleGlobals.registerForm "active" = true) :=
  ⟨by decide, by decide, _, rfl, by decide,
    settled_page_active sampleLayout samplePage sampleGlobals _ _ (by decide) (by decide) rfl
      (by decide)⟩

/-! ## The submit handler -/

/-- Validation lets an input through exactly when the password is absent or empty, or the
confirmation is absent or empty, or the two are equal. -/
theorem passwordsMismatch_eq_false (input : RegistrationInput) :
    passwordsMismatch input = false ↔
      (input.password = none ∨ input.password = some "" ∨ input.confirmPassword = none ∨
        input.confirmPassword = some "" ∨ input.password = input.confirmPassword) := by
  obtain ⟨email, pass, confirm⟩ := input
  cases pass with
  | none => simp [passwordsMismatch, fieldValue, truthy]
  | some p =>
    cases confirm with
    | none => simp [passwordsMismatch, fieldValue, truthy]
    | some c =>
      simp only [passwordsMismatch, fieldValue, truthy]
      by_cases hp : p = ""
      · simp [hp]
      · by_cases hc : c = ""
        · simp [hc]
        · simp [hp, hc]

theorem findEntry_putEntry (entries : List (String × String)) (key value : String) :
    findEntry (putEntry entries key value) key = some value := by
  induction entries with
  | nil => simp [putEntry, findEntry]
  | cons kv rest ih =>
    obtain ⟨k, v⟩ := kv
    by_cases h : k = key
    · simp [putEntry, findEntry, h]
    · simp [putEntry, findEntry, h, ih]

/-- The trace of a submit that passes validation and gets an OK response whose body parses
to an object with the string `t` as `access_token`, on a store that accepts the write. -/
theorem submitHandler_token_accepted (input : RegistrationInput) (r : Response)
    (props : List (String × JSVal)) (t : String) (store : Storage)
    (hvalid : passwordsMismatch input = false) (hok : r.ok = true)
    (hjson : r.json = .ok (.obj props)) (htoken : ownProp props "access_token" = .str t)
    (haccept : store.failure "access_token" t = none) :
    submitHandler input (.resolved r) store
      = [.preventDefault, .fetch (loginRequest input),
         .consoleLog "Respuesta del backend:" (.obj props),
         .setItem "access_token" t, .assignLocation "/empresa"] := by
  simp [submitHandler, hvalid, hok, okBranch, hjson, getProp, htoken, toStr, setItem, haccept]

/-- The same submit on a store that refuses the write with `error`. -/
theorem submitHandler_token_refused (input : RegistrationInput) (r : Response)
    (props : List (String × JSVal)) (t : String) (store : Storage) (error : JSError)
    (hvalid : passwordsMismatch input = false) (hok : r.ok = true)
    (hjson : r.json = .ok (.obj props)) (htoken : ownProp props "access_token" = .str t)
    (hrefuse : store.failure "access_token" t = some error) :
    submitHandler input (.resolved r) store
      = [.preventDefault, .fetch (loginRequest input),
         .consoleLog "Respuesta del backend:" (.obj props),
         .consoleError "Error al conectar con el servidor:" error,
         .alert "No se pudo conectar con el backend"] := by
  simp [submitHandler, hvalid, hok, okBranch, hjson, getProp, htoken, toStr, setItem, hrefuse,
    catchBlock]

/-- C1. When password and confirmation are both non-empty and differ, the handler issues no
request, shows the one dialog `Las contraseñas no coinciden`, writes nothing to the store
and does not navigate, however the network and the store would have answered. -/
theorem mismatch_only_alerts (input : RegistrationInput) (net : FetchResult) (store : Storage)
    (p c : String) (hpass : input.password = some p) (hconf : input.confirmPassword = some c)
    (hp : p ≠ "") (hc : c ≠ "") (hne : p ≠ c) :
    requests (submitHandler input net store) = [] ∧
    dialogs (submitHandler input net store) = ["Las contraseñas no coinciden"] ∧
    storeWrites (submitHandler input net store) = [] ∧
    navigations (submitHandler input net store) = [] := by
  have hm : passwordsMismatch input = true := by
    simp [passwordsMismatch, hpass, hconf, fieldValue, truthy, hp, hc, hne]
  simp [submitHandler, hm, requests, dialogs, storeWrites, navigations]

theorem mismatch_only_alerts_witness :
    requests (submitHandler
      { email := some "ana@example.com", password := some "secret", confirmPassword := some "secre" }
      (.resolved { status := 200, json := .ok (.obj [("access_token", .str "abc123")]) })
      sampleStore) = [] ∧
    dialogs (submitHandler
      { email := some "ana@example.com", password := some "secret", confirmPassword := some "secre" }
      (.resolved { status := 200, json := .ok (.obj [("access_token", .str "abc123")]) })
      sampleStore) = ["Las contraseñas no coinciden"] ∧
    storeWrites (submitHandler
      { email := some "ana@example.com", password := some "secret", confirmPassword := some "secre" }
      (.resolved { status := 200, json := .ok (.obj [("access_token", .str "abc123")]) })
      sampleStore) = [] ∧
    navigations (submitHandler
      { email := some "ana@example.com", password := some "secret", confirmPassword := some "secre" }
      (.resolved { status := 200, json := .ok (.obj [("access_token", .str "abc123")]) })
      sampleStore) = [] :=
  mismatch_only_alerts _ _ _ "secret" "secre" rfl rfl (by decide) (by decide) (by decide)

/-- C2, as stated, fails. With a valid input, status 200 and a body whose `access_token`
is `abc123`, on a store that is full `localStorage.setItem` throws inside the `try` block: the key `access_token` does not hold `abc123` afterwards, and the `catch`
block has shown a dialog. -/
theorem ok_response_full_store :
    ¬ (∀ (input : RegistrationInput) (r : Response) (props : List (String × JSVal))
        (t : String) (store : Storage),
        passwordsMismatch input = false → r.ok = true → r.json = .ok (.obj props) →
        ownProp props "access_token" = .str t →
        getItem (storageAfter store (submitHandler input (.resolved r) store)) "access_token"
          = some t ∧
        navigations (submitHandler input (.resolved r) store) = ["/empresa"] ∧
        dialogs (submitHandler input (.resolved r) store) = []) := by
  intro h
  have h1 := h sampleInput { status := 200, json := .ok (.obj [("access_token", .str "abc123")]) }
    [("access_token", .str "abc123")] "abc123" fullStore (by decide) (by decide) rfl
    (by simp [ownProp])
  rw [submitHandler_token_refused sampleInput _ [("access_token", .str "abc123")] "abc123"
    fullStore sampleQuotaError (by decide) (by decide) rfl (by simp [ownProp]) rfl] at h1
  simp [dialogs] at h1

/-- C2, amended. When the input passes validation and the response has an OK status and a
body that parses to an object whose `access_token` is the string `t`: if the store accepts
the write, the handler writes `t` under the key `access_token` and nothing else, so that the
key holds `t` afterwards, it assigns `/empresa` to the location and it shows no dialog; if
`localStorage.setItem` throws `error`, the handler logs `error` with `console.error`, shows
the one dialog `No se pudo conectar con el backend`, writes nothing and does not navigate. -/
theorem ok_response_stores_token (input : RegistrationInput) (r : Response)
    (props : List (String × JSVal)) (t : String) (store : Storage)
    (hvalid : passwordsMismatch input = false) (hok : r.ok = true)
    (hjson : r.json = .ok (.obj props)) (htoken : ownProp props "access_token" = .str t) :
    (store.failure "access_token" t = none →
      storeWrites (submitHandler input (.resolved r) store) = [("access_token", t)] ∧
      getItem (storageAfter store (submitHandler input (.resolved r) store)) "access_token"
        = some t ∧
      navigations (submitHandler input (.resolved r) store) = ["/empresa"] ∧
      dialogs (submitHandler input (.resolved r) store) = []) ∧
    (∀ error : JSError, store.failure "access_token" t = some error →
      loggedErrors (submitHandler input (.resolved r) store)
        = [("Error al conectar con el servidor:", error)] ∧
      dialogs (submitHandler input (.resolved r) store)
        = ["No se pudo conectar con el backend"] ∧
      storeWrites (submitHandler input (.resolved r) store) = [] ∧
      navigations (submitHandler input (.resolved r) store) = []) := by
  constructor
  · intro haccept
    rw [submitHandler_token_accepted input r props t store hvalid hok hjson htoken haccept]
    simp [storeWrites, storageAfter, getItem, navigations, dialogs, findEntry_putEntry]
  · intro error hrefuse
    rw [submitHandler_token_refused input r props t store error hvalid hok hjson htoken hrefuse]
    simp [loggedErrors, storeWrites, navigations, dialogs]

theorem ok_response_stores_token_witness :
    (storeWrites (submitHandler sampleInput
        (.resolved { status := 200, json := .ok (.obj [("access_token", .str "abc123")]) })
        sampleStore) = [("access_token", "abc123")] ∧
      getItem (storageAfter sampleStore (submitHandler sampleInput
        (.resolved { status := 200, json := .ok (.obj [("access_token", .str "abc123")]) })
        sampleStore)) "access_token" = some "abc123" ∧
      navigations (submitHandler sampleInput
        (.resolved { status := 200, json := .ok (.obj [("access_token", .str "abc123")]) })
        sampleStore) = ["/empresa"] ∧
      dialogs (submitHandler sampleInput
        (.resolved { status := 200, json := .ok (.obj [("access_token", .str "abc123")]) })
        sampleStore) = []) ∧
    (loggedErrors (submitHandler sampleInput
        (.resolved { status := 200, json := .ok (.obj [("access_token", .str "abc123")]) })
        fullStore) = [("Error al conectar con el servidor:", sampleQuotaError)] ∧
      dialogs (submitHandler sampleInput
        (.resolved { status := 200, json := .ok (.obj [("access_token", .str "abc123")]) })
        fullStore) = ["No se pudo conectar con el backend"] ∧
      storeWrites (submitHandler sampleInput
        (.resolved { status := 200, json := .ok (.obj [("access_token", .str "abc123")]) })
        fullStore) = [] ∧
      navigations (submitHandler sampleInput
        (.resolved { status := 200, json := .ok (.obj [("access_token", .str "abc123")]) })
        fullStore) = []) :=
  ⟨(ok_response_stores_token sampleInput _ [("access_token", .str "abc123")] "abc123"
      sampleStore (by decide) (by decide) rfl (by simp [ownProp])).1 rfl,
   (ok_response_stores_token sampleInput _ [("access_token", .str "abc123")] "abc123"
      fullStore (by decide) (by decide) rfl (by simp [ownProp])).2 sampleQuotaError rfl⟩

/-- C3. When the input passes validation and the response has a non-OK status and a body
that parses to an object whose `detail` is a non-empty string `d`: the handler shows the
one dialog `Error: ` followed by `d`, does not navigate and writes nothing to the store. -/
theorem error_response_shows_detail (input : RegistrationInput) (r : Response)
    (store : Storage) (props : List (String × JSVal)) (d : String)
    (hvalid : passwordsMismatch input = false) (hok : r.ok = false)
    (hjson : r.json = .ok (.obj props)) (hdetail : ownProp props "detail" = .str d)
    (hd : d ≠ "") :
    dialogs (submitHandler input (.resolved r) store) = ["Error: " ++ d] ∧
    navigations (submitHandler input (.resolved r) store) = [] ∧
    storeWrites (submitHandler input (.resolved r) store) = [] := by
  have htr : submitHandler input (.resolved r) store
      = [.preventDefault, .fetch (loginRequest input), .alert ("Error: " ++ d)] := by
    simp [submitHandler, hvalid, hok, notOkBranch, hjson, getProp, hdetail, truthy, hd, toStr]
  rw [htr]
  simp [storeWrites, navigations, dialogs]

theorem error_response_shows_detail_witness :
    dialogs (submitHandler sampleInput
      (.resolved { status := 400, json := .ok (.obj [("detail", .str "email exists")]) })
      sampleStore) = ["Error: " ++ "email exists"] ∧
    navigations (submitHandler sampleInput
      (.resolved { status := 400, json := .ok (.obj [("detail", .str "email exists")]) })
      sampleStore) = [] ∧
    storeWrites (submitHandler sampleInput
      (.resolved { status := 400, json := .ok (.obj [("detail", .str "email exists")]) })
      sampleStore) = [] :=
  error_response_shows_detail _ _ _ [("detail", .str "email exists")] "email exists"
    (by decide) (by decide) rfl (by simp [ownProp]) (by decide)

/-- C6. For every input that validation lets through (password absent or empty, or
confirmation absent or empty, or the two equal), and however the network and the store
answer, the handler issues exactly one request: `POST` to
`http://127.0.0.1:8000/auth/login` with the one header `Content-Type: application/json`,
whose body is a string, the `JSON.stringify` of the object with the two properties `email`
and `password` read from the form; the confirmation is no part of it. -/
theorem valid_input_one_request (input : RegistrationInput) (net : FetchResult)
    (store : Storage)
    (hvalid : input.password = none ∨ input.password = some "" ∨
      input.confirmPassword = none ∨ input.confirmPassword = some "" ∨
      input.password = input.confirmPassword) :
    requests (submitHandler input net store) =
      [{ url := "http://127.0.0.1:8000/auth/login"
         method := "POST"
         headers := [("Content-Type", "application/json")]
         body := jsonStringify (.obj [("email", fieldValue input.email),
           ("password", fieldValue input.password)]) }] ∧
    (jsonStringify (.obj [("email", fieldValue input.email),
      ("password", fieldValue input.password)])).isSome = true := by
  have hv := (passwordsMismatch_eq_false input).2 hvalid
  constructor
  · cases net with
    | rejected e => simp [submitHandler, hv, requests, catchBlock, loginRequest]
    | resolved r =>
      have hnot : requests (notOkBranch r) = [] := by
        unfold notOkBranch
        repeat' split
        all_goals simp [requests, catchBlock]
      have hyes : requests (okBranch r store) = [] := by
        unfold okBranch
        repeat' split
        all_goals simp [requests, catchBlock]
      cases hok : r.ok <;> simp [submitHandler, hv, requests, hok, hnot, hyes, loginRequest]
  · simp [jsonStringify]

theorem valid_input_one_request_witness :
    requests (submitHandler
      { email := some "ana@example.com", password := some "secret", confirmPassword := none }
      (.rejected sampleNetworkError) sampleStore) =
      [{ url := "http://127.0.0.1:8000/auth/login"
         method := "POST"
         headers := [("Content-Type", "application/json")]
         body := some "\x7b\"email\":\"ana@example.com\",\"password\":\"secret\"\x7d" }] ∧
    (jsonStringify (.obj [("email", fieldValue (some "ana@example.com")),
      ("password", fieldValue (some "secret"))])).isSome = true :=
  valid_input_one_request
    { email := some "ana@example.com", password := some "secret", confirmPassword := none }
    (.rejected sampleNetworkError) sampleStore (Or.inr (Or.inr (Or.inl rfl)))

/-- C7. When the input passes validation and the request is rejected before any response
arrives: the handler logs the error with `console.error`, shows the one dialog
`No se pudo conectar con el backend`, writes nothing to the store and does not navigate. -/
theorem rejected_request_reports (input : RegistrationInput) (error : JSError)
    (store : Storage) (hvalid : passwordsMismatch input = false) :
    loggedErrors (submitHandler input (.rejected error) store)
      = [("Error al conectar con el servidor:", error)] ∧
    dialogs (submitHandler input (.rejected error) store)
      = ["No se pudo conectar con el backend"] ∧
    storeWrites (submitHandler input (.rejected error) store) = [] ∧
    navigations (submitHandler input (.rejected error) store) = [] := by
  simp [submitHandler, hvalid, catchBlock, loggedErrors, dialogs, storeWrites, navigations]

theorem rejected_request_reports_witness :
    loggedErrors (submitHandler sampleInput (.rejected sampleNetworkError) sampleStore)
      = [("Error al conectar con el servidor:", sampleNetworkError)] ∧
    dialogs (submitHandler sampleInput (.rejected sampleNetworkError) sampleStore)
      = ["No se pudo conectar con el backend"] ∧
    storeWrites (submitHandler sampleInput (.rejected sampleNetworkError) sampleStore) = [] ∧
    navigations (submitHandler sampleInput (.rejected sampleNetworkError) sampleStore) = [] :=
  rejected_request_reports _ _ _ (by decide)

/-- C8. When the input passes validation and the response has a non-OK status and a body
that is not JSON, so that `response.json()` throws `error`: the handler logs `error` with
`console.error`, shows the one dialog `No se pudo conectar con el backend`, which carries
no text from the server, does not navigate and writes nothing to the store. -/
theorem unparseable_error_body_reports (input : RegistrationInput) (r : Response)
    (store : Storage) (error : JSError)
    (hvalid : passwordsMismatch input = false) (hok : r.ok = false)
    (hjson : r.json = .error error) :
    loggedErrors (submitHandler input (.resolved r) store)
      = [("Error al conectar con el servidor:", error)] ∧
    dialogs (submitHandler input (.resolved r) store)
      = ["No se pudo conectar con el backend"] ∧
    navigations (submitHandler input (.resolved r) store) = [] ∧
    storeWrites (submitHandler input (.resolved r) store) = [] := by
  simp [submitHandler, hvalid, hok, notOkBranch, hjson, catchBlock, loggedErrors, dialogs,
    storeWrites, navigations]

theorem unparseable_error_body_reports_witness :
    loggedErrors (submitHandler sampleInput
      (.resolved { status := 400, json := .error sampleSyntaxError }) sampleStore)
      = [("Error al conectar con el servidor:", sampleSyntaxError)] ∧
    dialogs (submitHandler sampleInput
      (.resolved { status := 400, json := .error sampleSyntaxError }) sampleStore)
      = ["No se pudo conectar con el backend"] ∧
    navigations (submitHandler sampleInput
      (.resolved { status := 400, json := .error sampleSyntaxError }) sampleStore) = [] ∧
    storeWrites (submitHandler sampleInput
      (.resolved { status := 400, json := .error sampleSyntaxError }) sampleStore) = [] :=
  unparseable_error_body_reports _ _ _ _ (by decide) (by decide) rfl

/-- C9. When the input passes validation and the response has a non-OK status and a body
that parses to an object whose `detail` is absent (reading it gives `undefined`) or
otherwise falsy (empty string, `null`, `false`, zero): the handler shows the one dialog
`Error: No se pudo procesar la solicitud`, does not navigate and writes nothing to the
store. -/
theorem error_response_without_detail (input : RegistrationInput) (r : Response)
    (store : Storage) (props : List (String × JSVal))
    (hvalid : passwordsMismatch input = false) (hok : r.ok = false)
    (hjson : r.json = .ok (.obj props)) (hdetail : truthy (ownProp props "detail") = false) :
    dialogs (submitHandler input (.resolved r) store)
      = ["Error: No se pudo procesar la solicitud"] ∧
    navigations (submitHandler input (.resolved r) store) = [] ∧
    storeWrites (submitHandler input (.resolved r) store) = [] := by
  have htr : submitHandler input (.resolved r) store
      = [.preventDefault, .fetch (loginRequest input),
         .alert ("Error: " ++ "No se pudo procesar la solicitud")] := by
    simp [submitHandler, hvalid, hok, notOkBranch, hjson, getProp, hdetail, toStr]
  rw [htr]
  refine ⟨?_, by simp [navigations], by simp [storeWrites]⟩
  simp only [dialogs]
  decide

theorem error_response_without_detail_witness :
    dialogs (submitHandler sampleInput
      (.resolved { status := 422, json := .ok (.obj [("code", .num 7), ("detail", .str "")]) })
      sampleStore) = ["Error: No se pudo procesar la solicitud"] ∧
    navigations (submitHandler sampleInput
      (.resolved { status := 422, json := .ok (.obj [("code", .num 7), ("detail", .str "")]) })
      sampleStore) = [] ∧
    storeWrites (submitHandler sampleInput
      (.resolved { status := 422, json := .ok (.obj [("code", .num 7), ("detail", .str "")]) })
      sampleStore) = [] :=
  error_response_without_detail _ _ _ [("code", .num 7), ("detail", .str "")] (by decide)
    (by decide) rfl (by simp [ownProp, truthy])

end ViewLogin
